import Mathlib

/-!
# Fordox core verification

Shallow embedding of the two core backend functions of the Fordox
agro-monitoring repository:

* `supabase/functions/get-raw-data/index.ts` — the generic table query
  builder (whitelisted tables, free-text filter across all columns,
  sort validation, pagination, and the special-cased join for the
  `informacoes` table), together with a trace model of its I/O with the
  relational source (connect / queries / disconnect / HTTP response).
* the `get-sensor-data` edge function — grouping of joined reading rows
  by `(sensor_descricao, grupo)` key, per-category reduction
  (current/average/min/max, 10-entry reading cap) and the ordered
  classification chain into the six fixed categories.

JavaScript numbers are modelled by `JSNum` (a rational or NaN), with the
NaN-propagating arithmetic of `+`, `Math.min`, `Math.max` and the
falsiness of NaN in `x || 0`.
-/

namespace Fordox

/-- A JavaScript number as the aggregator sees it: either a rational
value or NaN (the result of `parseFloat` on a non-numeric string). -/
inductive JSNum where
  | nan : JSNum
  | num : ℚ → JSNum
deriving DecidableEq, Repr

/-- JS `+` on numbers: NaN propagates. -/
def jsAdd : JSNum → JSNum → JSNum
  | JSNum.num a, JSNum.num b => JSNum.num (a + b)
  | _, _ => JSNum.nan

/-- JS `Math.min` on two numbers: NaN propagates. -/
def jsMin : JSNum → JSNum → JSNum
  | JSNum.num a, JSNum.num b => JSNum.num (min a b)
  | _, _ => JSNum.nan

/-- JS `Math.max` on two numbers: NaN propagates. -/
def jsMax : JSNum → JSNum → JSNum
  | JSNum.num a, JSNum.num b => JSNum.num (max a b)
  | _, _ => JSNum.nan

/-- JS division of a number by a list length.  Only applied with a
positive length in the aggregator (the zero-readings guard returns
first), so the `n = 0` branch is unreachable there. -/
def jsDivNat (a : JSNum) (n : Nat) : JSNum :=
  match a with
  | JSNum.nan => JSNum.nan
  | JSNum.num q => if n = 0 then JSNum.nan else JSNum.num (q / n)

/-- JS `x || 0` for a number `x`: NaN (and 0) are falsy, so NaN maps to
0 and every rational is returned unchanged (0 maps to 0). -/
def jsOrZero : JSNum → JSNum
  | JSNum.nan => JSNum.num 0
  | JSNum.num q => JSNum.num q

/-- JS `Math.min(...values)` over a non-empty spread, as in the source:
first element as seed, folded with `jsMin`.  `Math.min()` of an empty
spread is +Infinity in JS; the aggregator guards this case away, and we
use NaN as the (unreachable) empty answer. -/
def jsMinList : List JSNum → JSNum
  | [] => JSNum.nan
  | x :: xs => xs.foldl jsMin x

/-- JS `Math.max(...values)` over a non-empty spread. -/
def jsMaxList : List JSNum → JSNum
  | [] => JSNum.nan
  | x :: xs => xs.foldl jsMax x

namespace RawData

/-!
## get-raw-data: parameterized query construction

`supabase/functions/get-raw-data/index.ts`, lines 75–259.  The pure part
(SQL string and bound-parameter construction) is embedded directly; the
I/O shape (connect, queries, disconnect, response) is embedded as an
event trace parameterized by an oracle telling which external calls
succeed.
-/

/-- A bound query parameter (the elements of `mainQueryParams`,
`countQueryParams`, `joinMainParams`, `joinCountParams`). -/
inductive SQLParam where
  | str : String → SQLParam
  | int : Int → SQLParam
deriving DecidableEq, Repr

/-- Line 88: `const allowedTables = ['informacoes', 'sensor', 'grupo']`. -/
def allowedTables : List String := ["informacoes", "sensor", "grupo"]

/-- Line 98: `const offset = (page - 1) * pageSize`. -/
def offsetOf (page pageSize : Int) : Int := (page - 1) * pageSize

/-- Lines 138–139 and 204: `['ASC', 'DESC'].includes(sortOrder.toUpperCase())
? sortOrder.toUpperCase() : 'ASC'`. -/
def validatedSortOrder (sortOrder : String) : String :=
  if sortOrder.toUpper = "ASC" ∨ sortOrder.toUpper = "DESC" then sortOrder.toUpper
  else "ASC"

/-- One filter disjunct of the generic path (line 117–118):
`CAST("col" AS TEXT) ILIKE $i`, the column double-quoted. -/
def quotedCond (col : String) (i : Nat) : String :=
  "CAST(\"" ++ col ++ "\" AS TEXT) ILIKE $" ++ toString i

/-- One filter disjunct of the `informacoes` join path (line 188–189):
`CAST(col AS TEXT) ILIKE $i`, the qualified column unquoted. -/
def plainCond (col : String) (i : Nat) : String :=
  "CAST(" ++ col ++ " AS TEXT) ILIKE $" ++ toString i

/-- `columns.map(col => mk(col, idx++))` with a running parameter index:
returns the produced disjuncts and the index value after the map. -/
def condsFold (mk : String → Nat → String) (cols : List String) (start : Nat) :
    List String × Nat :=
  cols.foldl (fun acc col => (acc.1 ++ [mk col acc.2], acc.2 + 1)) ([], start)

/-- Line 117: the data-query filter disjunction of the generic path
(`mainParamIndex` starts at 1). -/
def mainFilterConditions (cols : List String) : String :=
  String.intercalate " OR " (condsFold quotedCond cols 1).1

/-- Line 118: the count-query filter disjunction of the generic path
(`countParamIndex` starts at 1). -/
def countFilterConditions (cols : List String) : String :=
  String.intercalate " OR " (condsFold quotedCond cols 1).1

/-- Line 188: the data-query filter disjunction of the `informacoes`
join path. -/
def joinMainFilterConditions (cols : List String) : String :=
  String.intercalate " OR " (condsFold plainCond cols 1).1

/-- Line 189: the count-query filter disjunction of the `informacoes`
join path. -/
def joinCountFilterConditions (cols : List String) : String :=
  String.intercalate " OR " (condsFold plainCond cols 1).1

/-- The four built artifacts: data query text and parameters, count
query text and parameters. -/
structure BuiltQueries where
  dataSQL : String
  dataParams : List SQLParam
  countSQL : String
  countParams : List SQLParam
deriving DecidableEq, Repr

/-- Lines 99–148 and 217–222: the generic (non-`informacoes`) build.
`cols` is the column-name list returned by the
`information_schema.columns` introspection for the table. -/
def buildGeneric (t : String) (cols : List String) (page pageSize : Int)
    (filter : String) (sortBy : Option String) (sortOrder : String) :
    BuiltQueries :=
  let query0 := "SELECT * FROM public.\"" ++ t ++ "\""
  let countQuery0 := "SELECT COUNT(*) FROM public.\"" ++ t ++ "\""
  let withFilter :=
    if filter = "" then (query0, countQuery0, ([] : List SQLParam), ([] : List SQLParam), 1)
    else
      (query0 ++ " WHERE (" ++ mainFilterConditions cols ++ ")",
       countQuery0 ++ " WHERE (" ++ countFilterConditions cols ++ ")",
       List.replicate cols.length (SQLParam.str ("%" ++ filter ++ "%")),
       List.replicate cols.length (SQLParam.str ("%" ++ filter ++ "%")),
       (condsFold quotedCond cols 1).2)
  let query1 := withFilter.1
  let countQuery1 := withFilter.2.1
  let mainParams := withFilter.2.2.1
  let countParams := withFilter.2.2.2.1
  let mainParamIndex := withFilter.2.2.2.2
  let query2 :=
    match sortBy with
    | none => query1
    | some s =>
      if s ∈ cols then
        query1 ++ " ORDER BY \"" ++ s ++ "\" " ++ validatedSortOrder sortOrder
      else query1
  let query3 := query2 ++ " LIMIT $" ++ toString mainParamIndex ++
    " OFFSET $" ++ toString (mainParamIndex + 1)
  ⟨query3, mainParams ++ [SQLParam.int pageSize, SQLParam.int (offsetOf page pageSize)],
   countQuery1, countParams⟩

/-- Line 187: the fixed joined column set used for filtering on the
`informacoes` path. -/
def filterColumns : List String :=
  ["i.id", "i.sensor", "s.descricao", "i.valor", "i.grupo", "g.nome",
   "i.data_registro", "i.dispositivo"]

/-- Line 202: the fixed allowed sort columns of the `informacoes` path. -/
def validColumns : List String :=
  ["id", "sensor", "sensor_descricao", "valor", "grupo", "grupo_nome",
   "data_registro", "dispositivo"]

/-- Lines 156–169: the `informacoes` join query base (template literal,
whitespace reproduced). -/
def joinQuery : String :=
  "\n        SELECT \n          i.id,\n          i.sensor,\n          s.descricao as sensor_descricao,\n          i.valor,\n          i.grupo,\n          g.nome as grupo_nome,\n          i.data_registro,\n          i.dispositivo\n        FROM public.\"informacoes\" i\n        LEFT JOIN public.\"sensor\" s ON i.sensor = s.id\n        LEFT JOIN public.\"grupo\" g ON i.grupo = g.id\n      "

/-- Lines 171–176: the `informacoes` join count query base. -/
def joinCountQuery : String :=
  "\n        SELECT COUNT(*) \n        FROM public.\"informacoes\" i\n        LEFT JOIN public.\"sensor\" s ON i.sensor = s.id\n        LEFT JOIN public.\"grupo\" g ON i.grupo = g.id\n      "

/-- Lines 154–216: the special-cased `informacoes` build (join with
`sensor` and `grupo`, fixed filter/sort column lists). -/
def buildInformacoes (page pageSize : Int) (filter : String)
    (sortBy : Option String) (sortOrder : String) : BuiltQueries :=
  let withFilter :=
    if filter = "" then (joinQuery, joinCountQuery, ([] : List SQLParam), ([] : List SQLParam), 1)
    else
      (joinQuery ++ " WHERE (" ++ joinMainFilterConditions filterColumns ++ ")",
       joinCountQuery ++ " WHERE (" ++ joinCountFilterConditions filterColumns ++ ")",
       List.replicate filterColumns.length (SQLParam.str ("%" ++ filter ++ "%")),
       List.replicate filterColumns.length (SQLParam.str ("%" ++ filter ++ "%")),
       (condsFold plainCond filterColumns 1).2)
  let finalQuery1 := withFilter.1
  let finalCountQuery := withFilter.2.1
  let joinMainParams := withFilter.2.2.1
  let joinCountParams := withFilter.2.2.2.1
  let joinMainParamIndex := withFilter.2.2.2.2
  let finalQuery2 :=
    match sortBy with
    | none => finalQuery1
    | some s =>
      if s ∈ validColumns then
        finalQuery1 ++ " ORDER BY " ++ s ++ " " ++ validatedSortOrder sortOrder
      else finalQuery1
  let finalQuery3 := finalQuery2 ++ " LIMIT $" ++ toString joinMainParamIndex ++
    " OFFSET $" ++ toString (joinMainParamIndex + 1)
  ⟨finalQuery3,
   joinMainParams ++ [SQLParam.int pageSize, SQLParam.int (offsetOf page pageSize)],
   finalCountQuery, joinCountParams⟩

/-- The queries actually executed for a validated table (line 154:
`if (tableName === 'informacoes')` selects the join build, any other
whitelisted table the generic build). -/
def buildQueries (t : String) (cols : List String) (page pageSize : Int)
    (filter : String) (sortBy : Option String) (sortOrder : String) :
    BuiltQueries :=
  if t = "informacoes" then buildInformacoes page pageSize filter sortBy sortOrder
  else buildGeneric t cols page pageSize filter sortBy sortOrder

/-- The request parameters read from the query string (lines 80–85),
after `parseInt` of page/pageSize (modelled as integers) and the
defaulting of `filter` to the empty string and `sortOrder` to ASC. -/
structure Request where
  tableName : Option String
  page : Int
  pageSize : Int
  filter : String
  sortBy : Option String
  sortOrder : String
deriving DecidableEq, Repr

/-- Outcome of the table-name validation step (lines 89–95): either the
400 rejection carrying the allowed-table list, or the built queries. -/
inductive BuildResult where
  | invalidTable : List String → BuildResult
  | ok : BuiltQueries → BuildResult
deriving DecidableEq, Repr

/-- The pure request-to-queries part of the handler: table validation
(lines 89–95) followed by query construction.  `cols` is the
introspected column list of the table. -/
def handleBuild (req : Request) (cols : List String) : BuildResult :=
  match req.tableName with
  | none => BuildResult.invalidTable allowedTables
  | some t =>
    if t ∈ allowedTables then
      BuildResult.ok (buildQueries t cols req.page req.pageSize req.filter
        req.sortBy req.sortOrder)
    else BuildResult.invalidTable allowedTables

/-- The SQL statements the handler can issue, named by role.  The two
introspection statements are parameterized on the table (and column)
name as bound values, never interpolated. -/
inductive QueryTag where
  | introspectColumns : String → QueryTag
  | checkSortColumn : String → String → QueryTag
  | runData : String → List SQLParam → QueryTag
  | runCount : String → List SQLParam → QueryTag
deriving DecidableEq, Repr

/-- The body of a produced HTTP response, as far as the claims inspect
it. -/
inductive Body where
  | invalidTable : List String → Body
  | serverError : Body
  | success : Body
deriving DecidableEq, Repr

/-- An observable I/O event of one request execution: relational-source
I/O (connect, a query, disconnect) or the HTTP response. -/
inductive Event where
  | connect : Event
  | query : QueryTag → Event
  | disconnect : Event
  | respond : Nat → Body → Event
deriving DecidableEq, Repr

/-- Which external calls succeed during one execution, plus the column
list the introspection query would return for the table. -/
structure Oracle where
  columns : List String
  connectOk : Bool
  introspectOk : Bool
  sortCheckOk : Bool
  dataOk : Bool
  countOk : Bool
deriving DecidableEq, Repr

/-- The event trace of one execution of the handler body from line 75
on (after auth and config checks, which involve no relational-source
I/O).  A failed external call throws; the only catch handler (lines
249–259) responds 500 and performs no `client.end()`. -/
def handleTrace (req : Request) (o : Oracle) : List Event :=
  if o.connectOk then
    Event.connect ::
    (match req.tableName with
     | none => [Event.disconnect, Event.respond 400 (Body.invalidTable allowedTables)]
     | some t =>
       if t ∈ allowedTables then
         -- lines 107–127: filter introspection runs whenever filter ≠ ''
         let fEv : List Event := if req.filter = "" then [] else [Event.query (QueryTag.introspectColumns t)]
         if req.filter ≠ "" ∧ ¬ o.introspectOk then fEv ++ [Event.respond 500 Body.serverError]
         else
           -- lines 130–144: sort column check runs whenever sortBy is present
           let sEv : List Event :=
             match req.sortBy with
             | none => []
             | some s => [Event.query (QueryTag.checkSortColumn t s)]
           if req.sortBy ≠ none ∧ ¬ o.sortCheckOk then
             fEv ++ sEv ++ [Event.respond 500 Body.serverError]
           else
             let q := buildQueries t o.columns req.page req.pageSize req.filter
               req.sortBy req.sortOrder
             let runEv : List Event :=
               [Event.query (QueryTag.runData q.dataSQL q.dataParams),
                Event.query (QueryTag.runCount q.countSQL q.countParams)]
             if ¬ (o.dataOk ∧ o.countOk) then
               fEv ++ sEv ++ runEv ++ [Event.respond 500 Body.serverError]
             else
               fEv ++ sEv ++ runEv ++
                 [Event.disconnect, Event.respond 200 Body.success]
       else [Event.disconnect, Event.respond 400 (Body.invalidTable allowedTables)])
  else [Event.respond 500 Body.serverError]

/-- The events that happen strictly before the first HTTP response of a
trace. -/
def eventsBeforeRespond (tr : List Event) : List Event :=
  tr.takeWhile (fun e => match e with | Event.respond _ _ => false | _ => true)

/-- The filter columns effectively used for table `t` (the fixed joined
list for `informacoes`, the introspected columns otherwise). -/
def filterColsFor (t : String) (cols : List String) : List String :=
  if t = "informacoes" then filterColumns else cols

end RawData

namespace Sensors

/-!
## get-sensor-data: grouping, reduction and classification

The `get-sensor-data` edge function, lines 324–426 of its source:
`result.rows.forEach` builds the `sensorData` record keyed by
`sensor_descricao + "_" + grupo` (insertion-ordered, modelled as an
association list), then `Object.values(sensorData).forEach` reduces each
group and assigns the reduction to the category slot chosen by the
ordered classification chain.
-/

/-- One joined input row (reading joined with sensor and grupo metadata
through LEFT JOINs, so the joined text fields may be null).  `valor`
holds the value as the aggregator parses it: `parseFloat(row.valor)`
yields a rational for a numeric string and NaN otherwise. -/
structure Row where
  id : Int
  sensor : Int
  valor : JSNum
  grupo : Int
  data_registro : String
  dispositivo : String
  sensor_descricao : Option String
  sensor_tipo : Option String
  grupo_nome : Option String
deriving DecidableEq, Repr

/-- One entry pushed into a group's `readings` (line 342–346). -/
structure Reading where
  value : JSNum
  timestamp : String
  dispositivo : String
deriving DecidableEq, Repr

/-- One value of the `sensorData` record (lines 330–339). -/
structure SensorGroup where
  sensor_id : Int
  sensor_name : Option String
  sensor_type : Option String
  grupo_id : Int
  grupo_name : Option String
  latest_value : JSNum
  latest_timestamp : String
  readings : List Reading
deriving DecidableEq, Repr

/-- JS template-literal rendering of a nullable text field (`null`
prints as the string "null"). -/
def renderOpt : Option String → String
  | none => "null"
  | some s => s

/-- Line 327: `const sensorKey = row.sensor_descricao + "_" + row.grupo`
(template literal). -/
def sensorKey (row : Row) : String :=
  renderOpt row.sensor_descricao ++ "_" ++ toString row.grupo

/-- Lines 330–339: the group created on first sight of a key, metadata
taken from that row, readings empty. -/
def initGroup (row : Row) : SensorGroup :=
  { sensor_id := row.sensor
    sensor_name := row.sensor_descricao
    sensor_type := row.sensor_tipo
    grupo_id := row.grupo
    grupo_name := row.grupo_nome
    latest_value := row.valor
    latest_timestamp := row.data_registro
    readings := [] }

/-- Lines 342–346: the reading pushed for a row. -/
def rowReading (row : Row) : Reading :=
  ⟨row.valor, row.data_registro, row.dispositivo⟩

/-- Property lookup in the insertion-ordered record. -/
def lookupKey (key : String) : List (String × SensorGroup) → Option SensorGroup
  | [] => none
  | p :: t => if p.1 = key then some p.2 else lookupKey key t

/-- In-place `sensorData[sensorKey].readings.push(...)` on the entry
with the given key. -/
def pushInto (key : String) (r : Reading) :
    List (String × SensorGroup) → List (String × SensorGroup)
  | [] => []
  | p :: t =>
    if p.1 = key then (p.1, { p.2 with readings := p.2.readings ++ [r] }) :: t
    else p :: pushInto key r t

/-- Lines 326–347, one iteration: initialize the group if the key is
unseen (appending it to the record in insertion order), then push the
row's reading. -/
def addRow (m : List (String × SensorGroup)) (row : Row) :
    List (String × SensorGroup) :=
  let key := sensorKey row
  match lookupKey key m with
  | some _ => pushInto key (rowReading row) m
  | none => m ++ [(key, { initGroup row with readings := [rowReading row] })]

/-- Lines 324–347: the full grouping pass over the fetched rows. -/
def buildSensorData (rows : List Row) : List (String × SensorGroup) :=
  rows.foldl addRow []

/-- One category slot (lines 350–355). -/
structure CategoryMetric where
  current : JSNum
  average : JSNum
  min : JSNum
  max : JSNum
  readings : List Reading
deriving DecidableEq, Repr

/-- The zero default every slot starts from (lines 350–355). -/
def defaultMetric : CategoryMetric :=
  ⟨JSNum.num 0, JSNum.num 0, JSNum.num 0, JSNum.num 0, []⟩

/-- The six fixed categories. -/
inductive Category where
  | temperature | humidity | water | energy | feed | weight
deriving DecidableEq, Repr

/-- The `metrics` object (lines 349–356). -/
structure Metrics where
  temperature : CategoryMetric
  humidity : CategoryMetric
  water : CategoryMetric
  energy : CategoryMetric
  feed : CategoryMetric
  weight : CategoryMetric
deriving DecidableEq, Repr

/-- The initial all-default `metrics` object. -/
def initMetrics : Metrics :=
  ⟨defaultMetric, defaultMetric, defaultMetric, defaultMetric, defaultMetric,
   defaultMetric⟩

/-- Projection of the slot of a category. -/
def getCat (m : Metrics) : Category → CategoryMetric
  | Category.temperature => m.temperature
  | Category.humidity => m.humidity
  | Category.water => m.water
  | Category.energy => m.energy
  | Category.feed => m.feed
  | Category.weight => m.weight

/-- Replacement of the slot of a category. -/
def setCat (m : Metrics) : Category → CategoryMetric → Metrics
  | Category.temperature, c => { m with temperature := c }
  | Category.humidity, c => { m with humidity := c }
  | Category.water, c => { m with water := c }
  | Category.energy, c => { m with energy := c }
  | Category.feed, c => { m with feed := c }
  | Category.weight, c => { m with weight := c }

/-- `needle.isPrefixOf hay || contains on the tail`: JS
`String.includes` on character lists. -/
def charsInclude (needle : List Char) : List Char → Bool
  | [] => needle.isEmpty
  | c :: t => needle.isPrefixOf (c :: t) || charsInclude needle t

/-- JS `hay.includes(needle)`. -/
def strIncludes (hay needle : String) : Bool :=
  charsInclude needle.toList hay.toList

/-- JS `sensor.sensor_name?.toLowerCase().includes(kw)`: false when the
name is null (optional chaining yields undefined, which is falsy). -/
def nameHas (g : SensorGroup) (kw : String) : Bool :=
  match g.sensor_name with
  | none => false
  | some n => strIncludes n.toLower kw

/-- Lines 369–425: the ordered classification chain, first match wins;
`none` when no predicate matches (the group then touches no slot). -/
def classify (g : SensorGroup) : Option Category :=
  if g.sensor_type = some "Celsius" ∨ nameHas g "temperatura" ∨ nameHas g "temp" then
    some Category.temperature
  else if g.sensor_type = some "Percentual" ∨ nameHas g "umidade" ∨ nameHas g "humidity" then
    some Category.humidity
  else if g.sensor_type = some "Litros" ∨ nameHas g "agua" ∨ nameHas g "water" then
    some Category.water
  else if g.sensor_type = some "kW" ∨ g.sensor_type = some "kw" ∨
      nameHas g "energia" ∨ nameHas g "energy" then
    some Category.energy
  else if g.sensor_type = some "Kg" ∨ g.sensor_type = some "kg" ∨
      nameHas g "racao" ∨ nameHas g "feed" ∨ nameHas g "alimento" then
    some Category.feed
  else if nameHas g "peso" ∨ nameHas g "weight" ∨ nameHas g "balanca" then
    some Category.weight
  else none

/-- Lines 359–367: the per-group reduction.  `readings` is the value
list; `average = readings.reduce((a,b) => a+b, 0) / readings.length`,
`min`/`max` are the spread `Math.min`/`Math.max`, `current =
readings[0] || 0` (also the value the temperature branch re-reads as
`readings[0] || 0`), and the transported reading objects are
`sensor.readings.slice(0, 10)`. -/
def reduceGroup (g : SensorGroup) : CategoryMetric :=
  let readings := g.readings.map Reading.value
  let average := jsDivNat (readings.foldl jsAdd (JSNum.num 0)) readings.length
  let mn := jsMinList readings
  let mx := jsMaxList readings
  let current := jsOrZero (readings.headD JSNum.nan)
  let sensorReadings := g.readings.take 10
  ⟨current, average, mn, mx, sensorReadings⟩

/-- Lines 358–426, one iteration: skip groups with zero readings (line
361), classify, and overwrite the matching slot with the reduction. -/
def applyGroup (m : Metrics) (g : SensorGroup) : Metrics :=
  if g.readings.length = 0 then m
  else
    match classify g with
    | some c => setCat m c (reduceGroup g)
    | none => m

/-- Lines 358–426: the reduction pass over `Object.values(sensorData)`
in insertion order. -/
def computeMetrics (sd : List (String × SensorGroup)) : Metrics :=
  sd.foldl (fun m p => applyGroup m p.2) initMetrics

/-- The full aggregation: `sensors` record and `metrics` object. -/
def aggregate (rows : List Row) : List (String × SensorGroup) × Metrics :=
  let sd := buildSensorData rows
  (sd, computeMetrics sd)

/-- Whether a group would win a category slot: nonzero readings and the
classification chain selecting that category. -/
def matchesCat (c : Category) (g : SensorGroup) : Bool :=
  !g.readings.isEmpty && decide (classify g = some c)

/-- The last group of the record (in iteration order) that matches a
category. -/
def lastMatch (c : Category) : List (String × SensorGroup) → Option SensorGroup
  | [] => none
  | p :: t =>
    match lastMatch c t with
    | some g => some g
    | none => if matchesCat c p.2 then some p.2 else none

/-- The rows of the fetched set whose key matches a given `sensorData`
key. -/
def rowsFor (key : String) (rows : List Row) : List Row :=
  rows.filter (fun r => sensorKey r == key)

end Sensors

/-! ## Theorems -/

namespace RawData

/-- Helper: last element of a list extended by two elements. -/
lemma getLast?_append_pair {α : Type} (l : List α) (a b : α) :
    (l ++ [a, b]).getLast? = some b := by
  induction l with
  | nil => rfl
  | cons x xs ih =>
    rw [List.cons_append, List.getLast?_cons, ih]
    rfl

/--
C2 (corrected): a request whose `tableName` is missing or outside the
whitelist is rejected with a 400 response whose body carries the
allowed-table list, and no SQL query is issued; however the connection
to the relational source is opened (and then closed) before the
validation, so the rejection does not happen before all I/O with the
relational source.  This theorem proves the amended part: the trace is
exactly connect, disconnect, respond 400 with the allowed tables, and
contains no query event.
-/
theorem C2_invalid_table_rejected (req : Request) (o : Oracle)
    (hc : o.connectOk = true)
    (ht : ∀ t, req.tableName = some t → t ∉ allowedTables) :
    handleTrace req o =
      [Event.connect, Event.disconnect,
       Event.respond 400 (Body.invalidTable allowedTables)]
    ∧ ∀ q, Event.query q ∉ handleTrace req o := by
  have htr : handleTrace req o =
      [Event.connect, Event.disconnect,
       Event.respond 400 (Body.invalidTable allowedTables)] := by
    unfold handleTrace
    rw [hc]
    cases hn : req.tableName with
    | none => simp
    | some t => simp [ht t hn]
  refine ⟨htr, ?_⟩
  intro q
  rw [htr]
  simp

/--
C2 counterexample: for the concrete non-whitelisted table "users" the
rejection is produced, but the connect event (I/O with the relational
source) happens strictly before the response, refuting "the rejection
happens before any I/O with it".
-/
theorem C2_counterexample :
    Event.connect ∈ eventsBeforeRespond
      (handleTrace ⟨some "users", 1, 10, "", none, "ASC"⟩
        ⟨["id"], true, true, true, true, true⟩)
    ∧ handleTrace ⟨some "users", 1, 10, "", none, "ASC"⟩
        ⟨["id"], true, true, true, true, true⟩ =
      [Event.connect, Event.disconnect,
       Event.respond 400 (Body.invalidTable allowedTables)] := by
  constructor
  · decide
  · decide

/-- Witness for C2: the rejection applies at the concrete table name
"users". -/
theorem C2_invalid_table_rejected_witness :
    handleTrace ⟨some "users", 1, 10, "", none, "ASC"⟩
        ⟨["id"], true, true, true, true, true⟩ =
      [Event.connect, Event.disconnect,
       Event.respond 400 (Body.invalidTable allowedTables)]
    ∧ ∀ q, Event.query q ∉ handleTrace ⟨some "users", 1, 10, "", none, "ASC"⟩
        ⟨["id"], true, true, true, true, true⟩ :=
  C2_invalid_table_rejected _ _ rfl (by intro t h; cases h; decide)

/--
C7 (corrected): no pagination validation exists.  For every whitelisted
table and every parsed `page`/`pageSize` — malformed or not — the
builder produces the queries (no rejection), and the pagination offset
passed to the data query (its last bound parameter) equals
`(page - 1) * pageSize`.
-/
theorem C7_no_pagination_validation (t : String) (cols : List String)
    (page pageSize : Int) (f : String) (sb : Option String) (so : String)
    (ht : t ∈ allowedTables) :
    handleBuild ⟨some t, page, pageSize, f, sb, so⟩ cols =
      BuildResult.ok (buildQueries t cols page pageSize f sb so)
    ∧ (buildQueries t cols page pageSize f sb so).dataParams.getLast? =
        some (SQLParam.int ((page - 1) * pageSize)) := by
  constructor
  · simp [handleBuild, ht]
  · unfold buildQueries buildInformacoes buildGeneric offsetOf
    split <;> simp [getLast?_append_pair]

/--
C7 counterexample: the malformed pagination value `page = 0` (violating
`page ≥ 1`) is not rejected: the builder returns the queries with the
negative offset `-10` bound, and the execution runs to a 200 response,
refuting "malformed pagination values are rejected with a
ValidationError before any query executes".
-/
theorem C7_counterexample :
    handleBuild ⟨some "sensor", 0, 10, "", none, "ASC"⟩ ["id"] =
      BuildResult.ok ⟨"SELECT * FROM public.\"sensor\" LIMIT $1 OFFSET $2",
        [SQLParam.int 10, SQLParam.int (-10)],
        "SELECT COUNT(*) FROM public.\"sensor\"", []⟩
    ∧ (handleTrace ⟨some "sensor", 0, 10, "", none, "ASC"⟩
        ⟨["id"], true, true, true, true, true⟩).getLast? =
      some (Event.respond 200 Body.success) := by
  constructor
  · decide
  · decide

/-- Witness for C7: the amended statement applies at the concrete
malformed input `page = 0`, `pageSize = 10` on table "sensor". -/
theorem C7_no_pagination_validation_witness :
    handleBuild ⟨some "sensor", 0, 10, "", none, "ASC"⟩ ["id"] =
      BuildResult.ok (buildQueries "sensor" ["id"] 0 10 "" none "ASC")
    ∧ (buildQueries "sensor" ["id"] 0 10 "" none "ASC").dataParams.getLast? =
        some (SQLParam.int ((0 - 1) * 10)) :=
  C7_no_pagination_validation "sensor" ["id"] 0 10 "" none "ASC" (by decide)

/--
C8 (code bug): a connection leak.  For the concrete execution in which
the data query fails at the source, the trace contains the connect
event, ends in the 500 response produced by the catch handler, and
contains no disconnect event: the response is produced while the
connection is left open, contradicting the claim (and the spec) that
every path releases the connection before the response.
-/
theorem C8_connection_leak :
    Event.connect ∈ handleTrace ⟨some "sensor", 1, 10, "", none, "ASC"⟩
        ⟨["id"], true, true, true, false, true⟩
    ∧ Event.disconnect ∉ handleTrace ⟨some "sensor", 1, 10, "", none, "ASC"⟩
        ⟨["id"], true, true, true, false, true⟩
    ∧ (handleTrace ⟨some "sensor", 1, 10, "", none, "ASC"⟩
        ⟨["id"], true, true, true, false, true⟩).getLast? =
      some (Event.respond 500 Body.serverError) := by
  refine ⟨by decide, by decide, by decide⟩

/--
C1 (confirmed): for every whitelisted table and every non-empty filter
value, the SQL text of the data query and of the count query is
independent of the filter value (equal for any two non-empty filters);
the filter disjunction (one `CAST(col AS TEXT) ILIKE` per column) is
textually identical in the data and count queries; and the filter value
reaches the queries only as bound parameters, `'%filter%'` once per
filter column in each query (the data query additionally binding the
pagination limit and offset).
-/
theorem C1_filter_value_independent (t : String) (cols : List String)
    (page pageSize : Int) (sortBy : Option String) (sortOrder : String)
    (f1 f2 : String) (ht : t ∈ allowedTables) (h1 : f1 ≠ "") (h2 : f2 ≠ "") :
    (buildQueries t cols page pageSize f1 sortBy sortOrder).dataSQL =
      (buildQueries t cols page pageSize f2 sortBy sortOrder).dataSQL
    ∧ (buildQueries t cols page pageSize f1 sortBy sortOrder).countSQL =
      (buildQueries t cols page pageSize f2 sortBy sortOrder).countSQL
    ∧ mainFilterConditions cols = countFilterConditions cols
    ∧ joinMainFilterConditions filterColumns = joinCountFilterConditions filterColumns
    ∧ (buildQueries t cols page pageSize f1 sortBy sortOrder).dataParams =
        List.replicate (filterColsFor t cols).length
          (SQLParam.str ("%" ++ f1 ++ "%"))
          ++ [SQLParam.int pageSize, SQLParam.int (offsetOf page pageSize)]
    ∧ (buildQueries t cols page pageSize f1 sortBy sortOrder).countParams =
        List.replicate (filterColsFor t cols).length
          (SQLParam.str ("%" ++ f1 ++ "%")) := by
  unfold buildQueries buildInformacoes buildGeneric filterColsFor
  by_cases hinf : t = "informacoes" <;>
    simp only [hinf, if_pos, if_neg, if_true, if_false, h1, h2, ite_false,
      ite_true, ne_eq, not_false_eq_true, if_neg h1, if_neg h2] <;>
    cases sortBy <;>
    simp [mainFilterConditions, countFilterConditions,
      joinMainFilterConditions, joinCountFilterConditions, hinf]

/-- Witness for C1: concrete instance at table "sensor" with two
columns, the injection-shaped filter from the spec versus a benign one. -/
theorem C1_filter_value_independent_witness :
    (buildQueries "sensor" ["id", "descricao"] 1 10 "; DROP TABLE sensor; --"
        (some "id") "desc").dataSQL =
      (buildQueries "sensor" ["id", "descricao"] 1 10 "abc"
        (some "id") "desc").dataSQL
    ∧ (buildQueries "sensor" ["id", "descricao"] 1 10 "; DROP TABLE sensor; --"
        (some "id") "desc").countSQL =
      (buildQueries "sensor" ["id", "descricao"] 1 10 "abc"
        (some "id") "desc").countSQL
    ∧ mainFilterConditions ["id", "descricao"] = countFilterConditions ["id", "descricao"]
    ∧ joinMainFilterConditions filterColumns = joinCountFilterConditions filterColumns
    ∧ (buildQueries "sensor" ["id", "descricao"] 1 10 "; DROP TABLE sensor; --"
        (some "id") "desc").dataParams =
        List.replicate (filterColsFor "sensor" ["id", "descricao"]).length
          (SQLParam.str ("%" ++ "; DROP TABLE sensor; --" ++ "%"))
          ++ [SQLParam.int 10, SQLParam.int (offsetOf 1 10)]
    ∧ (buildQueries "sensor" ["id", "descricao"] 1 10 "; DROP TABLE sensor; --"
        (some "id") "desc").countParams =
        List.replicate (filterColsFor "sensor" ["id", "descricao"]).length
          (SQLParam.str ("%" ++ "; DROP TABLE sensor; --" ++ "%")) :=
  C1_filter_value_independent "sensor" ["id", "descricao"] 1 10 (some "id")
    "desc" "; DROP TABLE sensor; --" "abc" (by decide) (by decide) (by decide)

/--
C6 (confirmed): a `sortBy` value that is not a recognized column of the
target table (not in the introspected column list, or, for the
special-cased `informacoes` join, not in its fixed allowed-column list)
produces exactly the queries built with no sort at all — no ORDER BY
clause, no error; and the sort order is normalized to exactly ASC or
DESC, any unrecognized value defaulting to ASC.
-/
theorem C6_sort_fallback (t : String) (cols : List String)
    (page pageSize : Int) (f s sortOrder : String)
    (ht : t ∈ allowedTables)
    (hs : s ∉ (if t = "informacoes" then validColumns else cols)) :
    (buildQueries t cols page pageSize f (some s) sortOrder).dataSQL =
      (buildQueries t cols page pageSize f none sortOrder).dataSQL
    ∧ (buildQueries t cols page pageSize f (some s) sortOrder).dataParams =
      (buildQueries t cols page pageSize f none sortOrder).dataParams
    ∧ (buildQueries t cols page pageSize f (some s) sortOrder).countSQL =
      (buildQueries t cols page pageSize f none sortOrder).countSQL
    ∧ (validatedSortOrder sortOrder = "ASC" ∨ validatedSortOrder sortOrder = "DESC")
    ∧ (sortOrder.toUpper ≠ "ASC" → sortOrder.toUpper ≠ "DESC" →
        validatedSortOrder sortOrder = "ASC") := by
  have hnorm : validatedSortOrder sortOrder = "ASC" ∨
      validatedSortOrder sortOrder = "DESC" := by
    unfold validatedSortOrder
    split
    · rename_i h
      rcases h with h | h <;> simp [h]
    · left; rfl
  have hdef : sortOrder.toUpper ≠ "ASC" → sortOrder.toUpper ≠ "DESC" →
      validatedSortOrder sortOrder = "ASC" := by
    intro ha hd
    unfold validatedSortOrder
    rw [if_neg]
    rintro (h | h) <;> [exact ha h; exact hd h]
  unfold buildQueries buildInformacoes buildGeneric
  by_cases hinf : t = "informacoes" <;> simp_all

/-- Witness for C6: concrete instance, unrecognized sort column and
unrecognized sort order on table "grupo". -/
theorem C6_sort_fallback_witness :
    (buildQueries "grupo" ["id", "nome"] 1 10 "x"
        (some "nonexistent_column") "bogus").dataSQL =
      (buildQueries "grupo" ["id", "nome"] 1 10 "x" none "bogus").dataSQL
    ∧ (buildQueries "grupo" ["id", "nome"] 1 10 "x"
        (some "nonexistent_column") "bogus").dataParams =
      (buildQueries "grupo" ["id", "nome"] 1 10 "x" none "bogus").dataParams
    ∧ (buildQueries "grupo" ["id", "nome"] 1 10 "x"
        (some "nonexistent_column") "bogus").countSQL =
      (buildQueries "grupo" ["id", "nome"] 1 10 "x" none "bogus").countSQL
    ∧ (validatedSortOrder "bogus" = "ASC" ∨ validatedSortOrder "bogus" = "DESC")
    ∧ ("bogus".toUpper ≠ "ASC" → "bogus".toUpper ≠ "DESC" →
        validatedSortOrder "bogus" = "ASC") :=
  C6_sort_fallback "grupo" ["id", "nome"] 1 10 "x" "nonexistent_column"
    "bogus" (by decide) (by decide)

end RawData

namespace Sensors

/-- Folding `jsAdd` over numeric values sums them. -/
lemma foldl_jsAdd_num (l : List ℚ) (a : ℚ) :
    (l.map JSNum.num).foldl jsAdd (JSNum.num a) = JSNum.num (a + l.sum) := by
  induction l generalizing a with
  | nil => simp
  | cons x xs ih =>
    simp only [List.map_cons, List.foldl_cons, jsAdd, List.sum_cons, ih]
    ring_nf

/-- Folding `jsMin` over numeric values computes the fold of `min`. -/
lemma foldl_jsMin_num (l : List ℚ) (a : ℚ) :
    (l.map JSNum.num).foldl jsMin (JSNum.num a) = JSNum.num (l.foldl min a) := by
  induction l generalizing a with
  | nil => rfl
  | cons x xs ih => simp only [List.map_cons, List.foldl_cons, jsMin, ih]

/-- Folding `jsMax` over numeric values computes the fold of `max`. -/
lemma foldl_jsMax_num (l : List ℚ) (a : ℚ) :
    (l.map JSNum.num).foldl jsMax (JSNum.num a) = JSNum.num (l.foldl max a) := by
  induction l generalizing a with
  | nil => rfl
  | cons x xs ih => simp only [List.map_cons, List.foldl_cons, jsMax, ih]

/-- The fold of `min` lands in the seed-plus-list. -/
lemma foldl_min_mem (a : ℚ) (l : List ℚ) : l.foldl min a ∈ a :: l := by
  induction l generalizing a with
  | nil => simp
  | cons x xs ih =>
    have h := ih (min a x)
    rw [List.foldl_cons]
    rcases List.mem_cons.1 h with h | h
    · rcases min_choice a x with hm | hm <;> rw [h, hm] <;> simp
    · simp [h]

/-- The fold of `min` bounds the seed and every element. -/
lemma foldl_min_le (a : ℚ) (l : List ℚ) : ∀ x ∈ a :: l, l.foldl min a ≤ x := by
  induction l generalizing a with
  | nil => intro x hx; rw [List.mem_singleton] at hx; simp [hx]
  | cons y ys ih =>
    intro x hx
    rw [List.foldl_cons]
    rcases List.mem_cons.1 hx with h | h
    · rw [h]
      exact le_trans (ih (min a y) _ (List.mem_cons_self _ _)) (min_le_left _ _)
    · rcases List.mem_cons.1 h with h | h
      · rw [h]
        exact le_trans (ih (min a y) _ (List.mem_cons_self _ _)) (min_le_right _ _)
      · exact ih (min a y) x (List.mem_cons_of_mem _ h)

/-- The fold of `max` lands in the seed-plus-list. -/
lemma foldl_max_mem (a : ℚ) (l : List ℚ) : l.foldl max a ∈ a :: l := by
  induction l generalizing a with
  | nil => simp
  | cons x xs ih =>
    have h := ih (max a x)
    rw [List.foldl_cons]
    rcases List.mem_cons.1 h with h | h
    · rcases max_choice a x with hm | hm <;> rw [h, hm] <;> simp
    · simp [h]

/-- The fold of `max` dominates the seed and every element. -/
lemma le_foldl_max (a : ℚ) (l : List ℚ) : ∀ x ∈ a :: l, x ≤ l.foldl max a := by
  induction l generalizing a with
  | nil => intro x hx; rw [List.mem_singleton] at hx; simp [hx]
  | cons y ys ih =>
    intro x hx
    rw [List.foldl_cons]
    rcases List.mem_cons.1 hx with h | h
    · rw [h]
      exact le_trans (le_max_left _ _) (ih (max a y) _ (List.mem_cons_self _ _))
    · rcases List.mem_cons.1 h with h | h
      · rw [h]
        exact le_trans (le_max_right _ _) (ih (max a y) _ (List.mem_cons_self _ _))
      · exact ih (max a y) x (List.mem_cons_of_mem _ h)

/--
C3 (confirmed): for a sensor group whose readings carry the numeric
values `v1 :: vs` (newest first), the per-group reduction yields
`average = (sum of values) / n`, `current = v1` (the head, not a
max-timestamp search), `min`/`max` equal to true extremes of the value
list, and a transported readings list equal to the first
`min(n, 10)` reading entries; and a group with zero readings is skipped
(it changes no category slot).
-/
theorem C3_reduction_correct (g : SensorGroup) (v1 : ℚ) (vs : List ℚ)
    (h : g.readings.map Reading.value = (v1 :: vs).map JSNum.num) :
    (reduceGroup g).average =
      JSNum.num ((v1 :: vs).sum / ((v1 :: vs).length : ℚ))
    ∧ (reduceGroup g).current = JSNum.num v1
    ∧ (∃ q : ℚ, (reduceGroup g).min = JSNum.num q ∧ q ∈ v1 :: vs ∧
        ∀ x ∈ v1 :: vs, q ≤ x)
    ∧ (∃ q : ℚ, (reduceGroup g).max = JSNum.num q ∧ q ∈ v1 :: vs ∧
        ∀ x ∈ v1 :: vs, x ≤ q)
    ∧ (reduceGroup g).readings = g.readings.take 10
    ∧ (reduceGroup g).readings.length = Nat.min g.readings.length 10
    ∧ ∀ (m : Metrics) (g0 : SensorGroup), g0.readings = [] →
        applyGroup m g0 = m := by
  have hlen : g.readings.length = vs.length + 1 := by
    have := congrArg List.length h
    simpa using this
  refine ⟨?_, ?_, ?_, ?_, ?_, ?_, ?_⟩
  · show jsDivNat ((g.readings.map Reading.value).foldl jsAdd (JSNum.num 0))
      (g.readings.map Reading.value).length = _
    rw [h, List.map_cons]
    rw [show (JSNum.num v1 :: vs.map JSNum.num) = (v1 :: vs).map JSNum.num from rfl]
    rw [foldl_jsAdd_num, jsDivNat, List.length_map]
    simp
  · show jsOrZero ((g.readings.map Reading.value).headD JSNum.nan) = _
    rw [h, List.map_cons, List.headD_cons, jsOrZero]
  · show ∃ q : ℚ, jsMinList (g.readings.map Reading.value) = JSNum.num q ∧ _
    rw [h, List.map_cons, jsMinList, foldl_jsMin_num]
    exact ⟨vs.foldl min v1, rfl, foldl_min_mem v1 vs, foldl_min_le v1 vs⟩
  · show ∃ q : ℚ, jsMaxList (g.readings.map Reading.value) = JSNum.num q ∧ _
    rw [h, List.map_cons, jsMaxList, foldl_jsMax_num]
    exact ⟨vs.foldl max v1, rfl, foldl_max_mem v1 vs, le_foldl_max v1 vs⟩
  · rfl
  · show (g.readings.take 10).length = _
    rw [List.length_take, Nat.min_comm]
  · intro m g0 h0
    unfold applyGroup
    rw [if_pos]
    rw [h0]
    rfl

/-- Witness for C3: the spec's end-to-end temperature example shape,
values 22, 21, 23 newest-first. -/
theorem C3_reduction_correct_witness :
    (([⟨JSNum.num 22, "t2", "d"⟩, ⟨JSNum.num 21, "t1", "d"⟩,
        ⟨JSNum.num 23, "t0", "d"⟩] : List Reading).map Reading.value =
      (((22 : ℚ) :: [21, 23]).map JSNum.num))
    ∧ (reduceGroup ⟨7, some "Temperatura Galpao", some "Celsius", 3, some "G",
        JSNum.num 22, "t2",
        [⟨JSNum.num 22, "t2", "d"⟩, ⟨JSNum.num 21, "t1", "d"⟩,
         ⟨JSNum.num 23, "t0", "d"⟩]⟩).average =
      JSNum.num ((((22 : ℚ) :: [21, 23]).sum) / ((((22 : ℚ) :: [21, 23]).length) : ℚ))
    ∧ (reduceGroup ⟨7, some "Temperatura Galpao", some "Celsius", 3, some "G",
        JSNum.num 22, "t2",
        [⟨JSNum.num 22, "t2", "d"⟩, ⟨JSNum.num 21, "t1", "d"⟩,
         ⟨JSNum.num 23, "t0", "d"⟩]⟩).current = JSNum.num 22 :=
  ⟨by decide,
   (C3_reduction_correct _ 22 [21, 23] (by decide)).1,
   (C3_reduction_correct _ 22 [21, 23] (by decide)).2.1⟩

/--
C4 (code bug): a row with non-numeric `valor` is not skipped and not
logged; `parseFloat` yields NaN, the NaN reading is pushed into the
group, and it corrupts the category reduction: with one numeric row
(value 25) and one non-numeric row in the same temperature group, the
category's average, min and max all become NaN instead of staying 25,
and both readings (including the NaN one) are transported.  The
aggregation as a whole indeed does not abort.
-/
theorem C4_non_numeric_corrupts :
    (computeMetrics (buildSensorData
        [⟨1, 7, JSNum.num 25, 3, "t1", "dev", some "Temperatura Galpao",
          some "Celsius", some "G"⟩,
         ⟨2, 7, JSNum.nan, 3, "t0", "dev", some "Temperatura Galpao",
          some "Celsius", some "G"⟩])).temperature =
      ⟨JSNum.num 25, JSNum.nan, JSNum.nan, JSNum.nan,
       [⟨JSNum.num 25, "t1", "dev"⟩, ⟨JSNum.nan, "t0", "dev"⟩]⟩ := by
  decide

/-- Reading a slot after writing one. -/
lemma getCat_setCat (m : Metrics) (c' c : Category) (x : CategoryMetric) :
    getCat (setCat m c' x) c = if c = c' then x else getCat m c := by
  cases c' <;> cases c <;> simp [getCat, setCat]

/-- One reduction step, slot-wise: a group overwrites the slot of its
category when it matches, and leaves every slot unchanged otherwise. -/
lemma getCat_applyGroup (m : Metrics) (g : SensorGroup) (c : Category) :
    getCat (applyGroup m g) c =
      if matchesCat c g then reduceGroup g else getCat m c := by
  unfold applyGroup matchesCat
  by_cases hr : g.readings.length = 0
  · rw [if_pos hr]
    have : g.readings.isEmpty = true := by
      cases hg : g.readings with
      | nil => rfl
      | cons a l => rw [hg] at hr; simp at hr
    rw [this]
    simp
  · rw [if_neg hr]
    have hne : g.readings.isEmpty = false := by
      cases hg : g.readings with
      | nil => rw [hg] at hr; simp at hr
      | cons a l => rfl
    rw [hne]
    cases hcl : classify g with
    | none => simp [hcl]
    | some c' =>
      rw [getCat_setCat]
      by_cases hc : c' = c
      · subst hc
        simp [hcl]
      · rw [if_neg (fun h => hc h.symm)]
        simp [hc]

/-- Folding the reduction pass computes, slot by slot, the reduction of
the last matching group, the accumulator slot surviving when no group
matches. -/
lemma getCat_foldl_applyGroup (sd : List (String × SensorGroup))
    (m : Metrics) (c : Category) :
    getCat (sd.foldl (fun m p => applyGroup m p.2) m) c =
      match lastMatch c sd with
      | some g => reduceGroup g
      | none => getCat m c := by
  induction sd generalizing m with
  | nil => rfl
  | cons p t ih =>
    rw [List.foldl_cons, ih, lastMatch]
    cases hl : lastMatch c t with
    | some g => rfl
    | none =>
      rw [getCat_applyGroup]
      by_cases hm : matchesCat c p.2
      · rw [if_pos hm, hm]
        simp
      · have hmf : matchesCat c p.2 = false := by
          cases h : matchesCat c p.2
          · rfl
          · exact absurd h hm
        rw [if_neg hm, hmf]
        simp

/-- `lastMatch` is the last element of the matching-group sublist, in
iteration order. -/
lemma lastMatch_eq_getLast? (c : Category) (sd : List (String × SensorGroup)) :
    lastMatch c sd = ((sd.map Prod.snd).filter (matchesCat c)).getLast? := by
  induction sd with
  | nil => rfl
  | cons p t ih =>
    rw [lastMatch, ih, List.map_cons, List.filter_cons]
    by_cases hm : matchesCat c p.2
    · simp only [hm, if_true, List.getLast?_cons]
      cases ((t.map Prod.snd).filter (matchesCat c)).getLast? <;> simp
    · have hmf : matchesCat c p.2 = false := by
        cases h : matchesCat c p.2
        · rfl
        · exact absurd h hm
      simp only [hmf, Bool.false_eq_true, if_false]
      cases ((t.map Prod.snd).filter (matchesCat c)).getLast? <;> simp

/--
C5 (confirmed): when two or more sensor groups classify into the same
category, the final slot of that category holds exactly the reduction
of whichever matching group comes last in the iteration order over the
`sensorData` record — no merging of the groups, no error value.
-/
theorem C5_last_write_wins (sd : List (String × SensorGroup))
    (c : Category) (g : SensorGroup)
    (hg : ((sd.map Prod.snd).filter (matchesCat c)).getLast? = some g)
    (hmany : 2 ≤ ((sd.map Prod.snd).filter (matchesCat c)).length) :
    getCat (computeMetrics sd) c = reduceGroup g := by
  unfold computeMetrics
  rw [getCat_foldl_applyGroup, lastMatch_eq_getLast?, hg]

/-- Witness for C5: two distinct Celsius sensor groups; the slot holds
the reduction of the second (last-processed) one. -/
theorem C5_last_write_wins_witness :
    (((([("Temperatura A_1",
          (⟨7, some "Temperatura A", some "Celsius", 1, some "G",
            JSNum.num 20, "t1", [⟨JSNum.num 20, "t1", "d"⟩]⟩ : SensorGroup)),
         ("Temperatura B_1",
          (⟨8, some "Temperatura B", some "Celsius", 1, some "G",
            JSNum.num 30, "t1", [⟨JSNum.num 30, "t1", "d"⟩]⟩ : SensorGroup))] :
        List (String × SensorGroup)).map Prod.snd).filter
        (matchesCat Category.temperature)).getLast? =
      some (⟨8, some "Temperatura B", some "Celsius", 1, some "G",
        JSNum.num 30, "t1", [⟨JSNum.num 30, "t1", "d"⟩]⟩ : SensorGroup))
    ∧ getCat (computeMetrics
        [("Temperatura A_1",
          ⟨7, some "Temperatura A", some "Celsius", 1, some "G",
            JSNum.num 20, "t1", [⟨JSNum.num 20, "t1", "d"⟩]⟩),
         ("Temperatura B_1",
          ⟨8, some "Temperatura B", some "Celsius", 1, some "G",
            JSNum.num 30, "t1", [⟨JSNum.num 30, "t1", "d"⟩]⟩)])
        Category.temperature =
      reduceGroup ⟨8, some "Temperatura B", some "Celsius", 1, some "G",
        JSNum.num 30, "t1", [⟨JSNum.num 30, "t1", "d"⟩]⟩ :=
  ⟨by decide, C5_last_write_wins _ Category.temperature _ (by decide) (by decide)⟩


lemma lookupKey_pushInto (m : List (String × SensorGroup)) (k key : String)
    (r : Reading) :
    lookupKey key (pushInto k r m) =
      if key = k then
        (lookupKey k m).map (fun g => { g with readings := g.readings ++ [r] })
      else lookupKey key m := by
  induction m with
  | nil =>
    simp only [pushInto, lookupKey]
    split <;> rfl
  | cons p t ih =>
    simp only [pushInto]
    by_cases hp : p.1 = k
    · by_cases hk : key = k
      · have hpkey : p.1 = key := hp.trans hk.symm
        simp [lookupKey, hpkey, hk, hp]
      · have hpkey : ¬ p.1 = key := fun h => hk (h.symm.trans hp)
        have hkk : ¬ k = key := fun h => hk h.symm
        simp [lookupKey, hpkey, hk, hp, hkk]
    · by_cases hpkey : p.1 = key
      · have hk : ¬ key = k := fun h => hp (hpkey.trans h)
        simp [lookupKey, hpkey, hk, hp, ih]
      · simp [lookupKey, hp, hpkey, ih]

lemma lookupKey_append_single (m : List (String × SensorGroup))
    (key k : String) (g : SensorGroup) :
    lookupKey key (m ++ [(k, g)]) =
      match lookupKey key m with
      | some g0 => some g0
      | none => if key = k then some g else none := by
  induction m with
  | nil =>
    simp only [List.nil_append, lookupKey]
    by_cases hk : k = key
    · simp [hk]
    · have hk2 : ¬ key = k := fun h => hk h.symm
      simp [hk, hk2]
  | cons p t ih =>
    simp only [List.cons_append, lookupKey]
    by_cases hp : p.1 = key
    · simp [hp]
    · simp [hp, ih]

lemma addRow_found (m : List (String × SensorGroup)) (row : Row)
    (g0 : SensorGroup) (h : lookupKey (sensorKey row) m = some g0) :
    addRow m row = pushInto (sensorKey row) (rowReading row) m := by
  simp only [addRow]
  rw [h]

lemma addRow_new (m : List (String × SensorGroup)) (row : Row)
    (h : lookupKey (sensorKey row) m = none) :
    addRow m row =
      m ++ [(sensorKey row,
        { initGroup row with readings := [rowReading row] })] := by
  simp only [addRow]
  rw [h]

lemma lookupKey_foldl_addRow (rows : List Row)
    (m : List (String × SensorGroup)) (key : String) :
    lookupKey key (rows.foldl addRow m) =
      match lookupKey key m with
      | some g => some { g with
          readings := g.readings ++ (rowsFor key rows).map rowReading }
      | none =>
        match rowsFor key rows with
        | [] => none
        | r :: rs => some { initGroup r with
            readings := rowReading r :: rs.map rowReading } := by
  induction rows generalizing m with
  | nil =>
    simp only [List.foldl_nil, rowsFor, List.filter_nil, List.map_nil,
      List.append_nil]
    cases lookupKey key m <;> rfl
  | cons r rows ih =>
    have hrowsFor : rowsFor key (r :: rows) =
        if sensorKey r = key then r :: rowsFor key rows else rowsFor key rows := by
      simp only [rowsFor, List.filter_cons]
      by_cases hk : sensorKey r = key
      · simp [hk]
      · simp [hk]
    rw [List.foldl_cons, ih, hrowsFor]
    by_cases hk : sensorKey r = key
    · rw [if_pos hk]
      cases hm : lookupKey (sensorKey r) m with
      | some g0 =>
        have hm2 : lookupKey key m = some g0 := by rw [← hk]; exact hm
        rw [addRow_found m r g0 hm, lookupKey_pushInto, if_pos hk.symm, hm, hm2]
        simp
      | none =>
        have hm2 : lookupKey key m = none := by rw [← hk]; exact hm
        rw [addRow_new m r hm, lookupKey_append_single, hm2, if_pos hk.symm]
        simp
    · rw [if_neg hk]
      cases hm : lookupKey (sensorKey r) m with
      | some g0 =>
        rw [addRow_found m r g0 hm, lookupKey_pushInto,
          if_neg (fun h => hk h.symm)]
      | none =>
        rw [addRow_new m r hm, lookupKey_append_single]
        cases hkm : lookupKey key m with
        | some g1 => rfl
        | none => rw [if_neg (fun h => hk h.symm)]


/--
C9 (confirmed): the `sensors` record is never truncated: the group
stored under a key holds exactly one reading per input row with that
key, in input order — so a group fed by 50 rows carries all 50
readings; the 10-entry cap exists only in the category metrics
(`reduceGroup`), never in the `sensors` record.
-/
theorem C9_sensors_record_uncapped (rows : List Row) (key : String)
    (g : SensorGroup)
    (h : lookupKey key (buildSensorData rows) = some g) :
    g.readings = (rowsFor key rows).map rowReading
    ∧ g.readings.length = (rowsFor key rows).length := by
  have h0 := lookupKey_foldl_addRow rows [] key
  rw [show buildSensorData rows = rows.foldl addRow [] from rfl] at h
  rw [h0] at h
  cases hr : rowsFor key rows with
  | nil =>
    rw [hr] at h
    simp [lookupKey] at h
  | cons r rs =>
    rw [hr] at h
    simp only [lookupKey] at h
    have hg : g = { initGroup r with
        readings := rowReading r :: rs.map rowReading } := by
      cases h; rfl
    rw [hg]
    constructor
    · simp
    · simp

/-- Witness for C9: three rows, two sharing a key; the shared group
holds exactly its two readings in input order. -/
theorem C9_sensors_record_uncapped_witness :
    lookupKey "Temp_1" (buildSensorData
      [⟨1, 7, JSNum.num 20, 1, "t2", "d", some "Temp", some "Celsius", some "G"⟩,
       ⟨2, 9, JSNum.num 50, 1, "t1", "d", some "Umidade", some "Percentual", some "G"⟩,
       ⟨3, 7, JSNum.num 21, 1, "t0", "d", some "Temp", some "Celsius", some "G"⟩]) =
      some ⟨7, some "Temp", some "Celsius", 1, some "G", JSNum.num 20, "t2",
        [⟨JSNum.num 20, "t2", "d"⟩, ⟨JSNum.num 21, "t0", "d"⟩]⟩
    ∧ (⟨7, some "Temp", some "Celsius", 1, some "G", JSNum.num 20, "t2",
        [⟨JSNum.num 20, "t2", "d"⟩, ⟨JSNum.num 21, "t0", "d"⟩]⟩ :
        SensorGroup).readings =
      (rowsFor "Temp_1"
        [⟨1, 7, JSNum.num 20, 1, "t2", "d", some "Temp", some "Celsius", some "G"⟩,
         ⟨2, 9, JSNum.num 50, 1, "t1", "d", some "Umidade", some "Percentual", some "G"⟩,
         ⟨3, 7, JSNum.num 21, 1, "t0", "d", some "Temp", some "Celsius", some "G"⟩]).map
        rowReading :=
  ⟨by decide,
   (C9_sensors_record_uncapped _ "Temp_1" _ (by decide)).1⟩

/--
C10 (confirmed): a group's metadata (sensor_id, sensor_name,
sensor_type, grupo_id, grupo_name, latest_value, latest_timestamp) is
exactly that of the first input row with its key; every later row with
the same key — whatever its own sensor id, type or metadata — adds only
its reading.
-/
theorem C10_metadata_from_first_row (rows : List Row) (key : String)
    (r : Row) (rs : List Row)
    (h : rowsFor key rows = r :: rs) :
    lookupKey key (buildSensorData rows) =
      some { sensor_id := r.sensor
             sensor_name := r.sensor_descricao
             sensor_type := r.sensor_tipo
             grupo_id := r.grupo
             grupo_name := r.grupo_nome
             latest_value := r.valor
             latest_timestamp := r.data_registro
             readings := (r :: rs).map rowReading } := by
  have h0 := lookupKey_foldl_addRow rows [] key
  rw [show buildSensorData rows = rows.foldl addRow [] from rfl, h0]
  simp only [lookupKey, h]
  rfl

/-- Witness for C10: the second row carries a different sensor id and
type under the same key; the stored metadata is the first row's. -/
theorem C10_metadata_from_first_row_witness :
    rowsFor "Temp_1"
      [⟨1, 7, JSNum.num 20, 1, "t2", "d", some "Temp", some "Celsius", some "G"⟩,
       ⟨2, 8, JSNum.num 21, 1, "t1", "d", some "Temp", some "Kg", some "H"⟩] =
      (⟨1, 7, JSNum.num 20, 1, "t2", "d", some "Temp", some "Celsius",
        some "G"⟩ : Row) ::
        [⟨2, 8, JSNum.num 21, 1, "t1", "d", some "Temp", some "Kg", some "H"⟩]
    ∧ lookupKey "Temp_1" (buildSensorData
        [⟨1, 7, JSNum.num 20, 1, "t2", "d", some "Temp", some "Celsius", some "G"⟩,
         ⟨2, 8, JSNum.num 21, 1, "t1", "d", some "Temp", some "Kg", some "H"⟩]) =
      some { sensor_id := 7
             sensor_name := some "Temp"
             sensor_type := some "Celsius"
             grupo_id := 1
             grupo_name := some "G"
             latest_value := JSNum.num 20
             latest_timestamp := "t2"
             readings :=
               ((⟨1, 7, JSNum.num 20, 1, "t2", "d", some "Temp", some "Celsius",
                   some "G"⟩ : Row) ::
                 [⟨2, 8, JSNum.num 21, 1, "t1", "d", some "Temp", some "Kg",
                   some "H"⟩]).map rowReading } :=
  ⟨by decide,
   C10_metadata_from_first_row _ "Temp_1"
     ⟨1, 7, JSNum.num 20, 1, "t2", "d", some "Temp", some "Celsius", some "G"⟩
     [⟨2, 8, JSNum.num 21, 1, "t1", "d", some "Temp", some "Kg", some "H"⟩]
     (by decide)⟩

end Sensors

end Fordox
